import Mathlib

/-!
Shallow embedding of the pub/sub subscription core of the go-gousu-redis
service (service.go: the Message type, the Subscription handle, and
Service.Subscribe with its receiver and keepalive goroutines).

Effectful transport calls are modelled by passing their replies in
explicitly: a call that can fail takes an Option RError argument
(none = success), and the goroutine loops consume a finite script of
transport events (frames received, ping replies per tick).  Every state
change and every transport operation the Go code performs is recorded in
the returned outcome, so the theorems can speak about ordering, about
resource release and about which operations were never issued.
-/

namespace GousuRedis

/-- Model of a Go error value in service.go: either the sentinel
"No connection" error produced by the Subscription methods themselves, or
an error handed back by the transport (SUBSCRIBE, UNSUBSCRIBE, Close,
Ping, Receive), identified by its message text. -/
inductive RError where
  | noConnection : RError
  | transport : String → RError
deriving DecidableEq, Repr

/-- Message (service.go:348): emitted after subscribing to a channel.
Go zero values are modelled as: Error = nil is none, Channel = "" stays
"", Data = nil is the empty list (bytes as Nat). -/
structure Message where
  Error : Option RError
  Channel : String
  Data : List Nat
deriving DecidableEq, Repr

/-- Message.IsError (service.go:355): returns if an error occured. -/
def Message.IsError (m : Message) : Bool :=
  m.Error.isSome

/-- a redis.PubSubConn handle: its identity stands for the dedicated pool
connection wrapped at the start of Service.Subscribe. -/
structure PubSubConn where
  connId : Nat
deriving DecidableEq, Repr

/-- Subscription (service.go:367): tracks a subscription to channels;
conn = none models the Go nil pointer, the sentinel for the torn-down
state. -/
structure Subscription where
  conn : Option PubSubConn
deriving DecidableEq, Repr

/-- one transport operation issued over the dedicated connection.  An
unsubscribeOp with an empty channel list is UNSUBSCRIBE of all channels
(redigo semantics of conn.Unsubscribe() with no arguments). -/
inductive TransportOp where
  | subscribeOp : List String → TransportOp
  | unsubscribeOp : List String → TransportOp
  | closeOp : TransportOp
  | pingOp : TransportOp
deriving DecidableEq, Repr

/-- result of one Subscription method call: the handle state after the
call, the returned Go error (none = success) and the transport operations
performed during the call, in order. -/
structure MethodOutcome where
  state : Subscription
  result : Option RError
  ops : List TransportOp
deriving DecidableEq, Repr

/-- Subscription.Subscribe (service.go:374): fails with the
"No connection" error when conn is nil; otherwise issues SUBSCRIBE for
the given channels and returns the transport reply transportResp. -/
def Subscription.Subscribe (s : Subscription) (channels : List String)
    (transportResp : Option RError) : MethodOutcome :=
  match s.conn with
  | none => ⟨s, some RError.noConnection, []⟩
  | some _ => ⟨s, transportResp, [TransportOp.subscribeOp channels]⟩

/-- Subscription.Unsubscribe (service.go:383): fails with the
"No connection" error when conn is nil; otherwise issues UNSUBSCRIBE for
the given channels (all channels when the list is empty) and returns the
transport reply transportResp.  The handle state is never modified. -/
def Subscription.Unsubscribe (s : Subscription) (channels : List String)
    (transportResp : Option RError) : MethodOutcome :=
  match s.conn with
  | none => ⟨s, some RError.noConnection, []⟩
  | some _ => ⟨s, transportResp, [TransportOp.unsubscribeOp channels]⟩

/-- Subscription.Close (service.go:392): fails with the "No connection"
error when conn is nil; otherwise issues UNSUBSCRIBE for all channels
(reply unsubResp) and returns early on its failure, then closes the
connection (reply closeResp) and returns early on its failure, and only
then sets conn to nil. -/
def Subscription.Close (s : Subscription)
    (unsubResp closeResp : Option RError) : MethodOutcome :=
  match s.conn with
  | none => ⟨s, some RError.noConnection, []⟩
  | some _ =>
    match unsubResp with
    | some e => ⟨s, some e, [TransportOp.unsubscribeOp []]⟩
    | none =>
      match closeResp with
      | some e =>
          ⟨s, some e, [TransportOp.unsubscribeOp [], TransportOp.closeOp]⟩
      | none =>
          ⟨⟨none⟩, none, [TransportOp.unsubscribeOp [], TransportOp.closeOp]⟩

/-- the buffered Go channel created by make(chan Message, 1): a bounded
ordered queue whose capacity is recorded at creation. -/
structure MessageStream where
  capacity : Nat
  buffer : List Message
deriving DecidableEq, Repr

/-- a blocking channel send: appends the message to the ordered queue.
No operation on the stream ever touches the capacity field. -/
def MessageStream.publish (ms : MessageStream) (m : Message) : MessageStream :=
  ⟨ms.capacity, ms.buffer ++ [m]⟩

/-- outcome of a Service.Subscribe call: the three returned values, the
transport operations performed during the call, and whether each of the
two background goroutines was started. -/
structure SubscribeOutcome where
  stream : Option MessageStream
  subscription : Option Subscription
  err : Option RError
  ops : List TransportOp
  receiverStarted : Bool
  keepaliveStarted : Bool
deriving DecidableEq, Repr

/-- Service.Subscribe (service.go:418): gets conn from the pool, wraps it
in a PubSubConn and issues SUBSCRIBE with the full channel set
(subscribeResp is the transport reply).  On failure it returns the error
together with a nil stream and a nil subscription, performing no further
operation on the connection; on success it creates the output channel of
capacity one, builds the Subscription around the connection, and starts
the receiver and keepalive goroutines. -/
def Service.Subscribe (channels : List String) (conn : PubSubConn)
    (subscribeResp : Option RError) : SubscribeOutcome :=
  match subscribeResp with
  | some e =>
      ⟨none, none, some e, [TransportOp.subscribeOp channels], false, false⟩
  | none =>
      ⟨some ⟨1, []⟩, some ⟨some conn⟩, none,
        [TransportOp.subscribeOp channels], true, true⟩

/-- one value produced by subscription.conn.Receive(), as classified by
the Go type switch in the receiver goroutine: an error, a redis.Message
(channel and data), a redis.Subscription carrying its Count, or any other
value (for example redis.Pong), which no case of the switch handles. -/
inductive Frame where
  | errorFrame : RError → Frame
  | messageFrame : String → List Nat → Frame
  | subscriptionFrame : Nat → Frame
  | pongFrame : Frame
deriving DecidableEq, Repr

/-- the receiver goroutine of Service.Subscribe (service.go:434): loops
while subscription.conn is non-nil; each iteration blocks on Receive and
classifies the frame: an error is sent to the output channel and the
goroutine returns; a redis.Message is sent and the loop continues; a
redis.Subscription with Count zero makes the goroutine return without
sending; any other frame is ignored.  The argument list is the script of
frames the transport delivers; the function returns the messages sent to
the output channel and the number of Receive calls performed. -/
def receiverRun (s : Subscription) : List Frame → List Message × Nat
  | [] => ([], 0)
  | f :: fs =>
    match s.conn with
    | none => ([], 0)
    | some _ =>
      match f with
      | Frame.errorFrame e => ([⟨some e, "", []⟩], 1)
      | Frame.messageFrame c d =>
          let r := receiverRun s fs
          (⟨none, c, d⟩ :: r.1, r.2 + 1)
      | Frame.subscriptionFrame 0 => ([], 1)
      | Frame.subscriptionFrame (_ + 1) =>
          let r := receiverRun s fs
          (r.1, r.2 + 1)
      | Frame.pongFrame =>
          let r := receiverRun s fs
          (r.1, r.2 + 1)

/-- the keepalive goroutine of Service.Subscribe (service.go:458): loops
while subscription.conn is non-nil; each tick issues a PING over the
connection (the script ticks gives the reply of each probe, none = pong
received).  When the probe fails, the goroutine sends the probe error to
the output channel and then calls subscription.Unsubscribe() with no
channel arguments, discarding its result (unsubResp is the transport
reply that discarded call receives).  Returns the messages sent, the
transport operations performed and the subscription state when the
script ends. -/
def keepaliveRun (unsubResp : Option RError) :
    Subscription → List (Option RError) →
      List Message × List TransportOp × Subscription
  | s, [] => ([], [], s)
  | s, t :: ts =>
    match s.conn with
    | none => ([], [], s)
    | some _ =>
      match t with
      | none =>
          let r := keepaliveRun unsubResp s ts
          (r.1, TransportOp.pingOp :: r.2.1, r.2.2)
      | some e =>
          let u := Subscription.Unsubscribe s [] unsubResp
          let r := keepaliveRun unsubResp u.state ts
          (⟨some e, "", []⟩ :: r.1,
            TransportOp.pingOp :: u.ops ++ r.2.1, r.2.2)

/-- the exclusivity invariant of Message, relative to the frames the
transport delivered: either the error field is set and the channel and
payload are at their zero values, or the error field is absent and the
channel and payload come from a delivered message frame. -/
def MessageOk (frames : List Frame) (m : Message) : Prop :=
  (m.Error ≠ none ∧ m.Channel = "" ∧ m.Data = []) ∨
  (m.Error = none ∧ Frame.messageFrame m.Channel m.Data ∈ frames)

/-- weakening of MessageOk along list extension of the frame script. -/
theorem MessageOk.weaken (f : Frame) (frames : List Frame) (m : Message)
    (h : MessageOk frames m) : MessageOk (f :: frames) m := by
  rcases h with h | ⟨h1, h2⟩
  · exact Or.inl h
  · exact Or.inr ⟨h1, List.mem_cons_of_mem f h2⟩

/-- every message the receiver goroutine sends satisfies the exclusivity
invariant with respect to the frames actually delivered. -/
theorem receiver_messages_ok (s : Subscription) (frames : List Frame)
    (m : Message) (hm : m ∈ (receiverRun s frames).1) :
    MessageOk frames m := by
  induction frames with
  | nil => simp [receiverRun] at hm
  | cons f fs ih =>
    cases hc : s.conn with
    | none => simp [receiverRun, hc] at hm
    | some c =>
      cases f with
      | errorFrame e =>
          simp [receiverRun, hc] at hm
          subst hm
          exact Or.inl (by simp)
      | messageFrame ch d =>
          simp [receiverRun, hc] at hm
          rcases hm with hm | hm
          · subst hm
            exact Or.inr (by simp)
          · exact MessageOk.weaken _ _ _ (ih hm)
      | subscriptionFrame n =>
          cases n with
          | zero => simp [receiverRun, hc] at hm
          | succ k =>
              simp [receiverRun, hc] at hm
              exact MessageOk.weaken _ _ _ (ih hm)
      | pongFrame =>
          simp [receiverRun, hc] at hm
          exact MessageOk.weaken _ _ _ (ih hm)

/-- every message the keepalive goroutine sends is an error message with
the channel and payload fields at their zero values. -/
theorem keepalive_messages_error_only (ur : Option RError)
    (s : Subscription) (ticks : List (Option RError)) (m : Message)
    (hm : m ∈ (keepaliveRun ur s ticks).1) :
    m.Error ≠ none ∧ m.Channel = "" ∧ m.Data = [] := by
  induction ticks generalizing s with
  | nil => simp [keepaliveRun] at hm
  | cons t ts ih =>
    cases hc : s.conn with
    | none => simp [keepaliveRun, hc] at hm
    | some c =>
      cases t with
      | none =>
          simp [keepaliveRun, hc] at hm
          exact ih _ hm
      | some e =>
          simp [keepaliveRun, hc, Subscription.Unsubscribe] at hm
          rcases hm with hm | hm
          · subst hm
            exact ⟨by simp, rfl, rfl⟩
          · exact ih _ hm

/-- C3: calling Close on a Subscription whose conn is already nil returns
the "No connection" error with no transport operation and no state
change; a successful Close issues UNSUBSCRIBE for all channels, then the
transport close, in that order, and ends with conn nil; the second of two
sequential Close calls whose first succeeded returns "No connection". -/
theorem C3_close_behavior (c : PubSubConn) (u cl : Option RError) :
    (Subscription.Close ⟨none⟩ u cl =
      ⟨⟨none⟩, some RError.noConnection, []⟩) ∧
    (Subscription.Close ⟨some c⟩ none none =
      ⟨⟨none⟩, none, [TransportOp.unsubscribeOp [], TransportOp.closeOp]⟩) ∧
    ((Subscription.Close (Subscription.Close ⟨some c⟩ none none).state u cl).result
      = some RError.noConnection) :=
  ⟨rfl, rfl, rfl⟩

/-- C7: calling Unsubscribe on a Subscription whose conn is already nil
returns the "No connection" error; with conn present, an Unsubscribe with
no channel arguments issues UNSUBSCRIBE for all channels (the empty
argument list) and an Unsubscribe with channel arguments issues
UNSUBSCRIBE for exactly those channels. -/
theorem C7_unsubscribe_behavior (c : PubSubConn) (chs : List String)
    (t u : Option RError) :
    (Subscription.Unsubscribe ⟨none⟩ chs t =
      ⟨⟨none⟩, some RError.noConnection, []⟩) ∧
    (Subscription.Unsubscribe ⟨some c⟩ [] u =
      ⟨⟨some c⟩, u, [TransportOp.unsubscribeOp []]⟩) ∧
    (Subscription.Unsubscribe ⟨some c⟩ chs u =
      ⟨⟨some c⟩, u, [TransportOp.unsubscribeOp chs]⟩) :=
  ⟨rfl, rfl, rfl⟩

/-- C10: when the UNSUBSCRIBE issued inside Close fails, Close returns
that error, performs no transport close, and leaves conn present, so a
subsequent Close with a healthy transport succeeds (retrying UNSUBSCRIBE
and close) and a subsequent Unsubscribe reaches the transport instead of
returning "No connection". -/
theorem C10_close_state_unchanged_on_error (c : PubSubConn) (e : RError)
    (cl u : Option RError) :
    (Subscription.Close ⟨some c⟩ (some e) cl =
      ⟨⟨some c⟩, some e, [TransportOp.unsubscribeOp []]⟩) ∧
    (Subscription.Close (Subscription.Close ⟨some c⟩ (some e) cl).state none none =
      ⟨⟨none⟩, none, [TransportOp.unsubscribeOp [], TransportOp.closeOp]⟩) ∧
    ((Subscription.Unsubscribe (Subscription.Close ⟨some c⟩ (some e) cl).state [] u).result
      = u) :=
  ⟨rfl, rfl, rfl⟩

/-- C4: when Receive yields an error frame, the receiver goroutine sends
exactly one message, carrying that error with zero-valued channel and
payload, and terminates: the Receive count is one whatever frames follow,
so no further receive is performed and no further message is sent. -/
theorem C4_receiver_error_frame (c : PubSubConn) (e : RError)
    (rest : List Frame) :
    receiverRun ⟨some c⟩ (Frame.errorFrame e :: rest) =
      ([⟨some e, "", []⟩], 1) :=
  rfl

/-- C5: a subscription-count frame with count zero makes the receiver
goroutine terminate after that single receive without sending any
message; with a non-zero count nothing is sent for that frame and the
loop continues with the remaining frames. -/
theorem C5_receiver_subscription_count (c : PubSubConn) (n : Nat)
    (rest : List Frame) :
    (receiverRun ⟨some c⟩ (Frame.subscriptionFrame 0 :: rest) = ([], 1)) ∧
    (receiverRun ⟨some c⟩ (Frame.subscriptionFrame (n + 1) :: rest) =
      ((receiverRun ⟨some c⟩ rest).1, (receiverRun ⟨some c⟩ rest).2 + 1)) :=
  ⟨rfl, rfl⟩

/-- C6: every message either goroutine ever sends to the output channel
satisfies the exclusivity invariant: the receiver goroutine sends either
an error message with zero-valued channel and payload or a data message
without error whose channel and payload come from a delivered message
frame, and the keepalive goroutine only ever sends error messages with
zero-valued channel and payload. -/
theorem C6_message_exclusivity :
    (∀ (s : Subscription) (frames : List Frame) (m : Message),
        m ∈ (receiverRun s frames).1 → MessageOk frames m) ∧
    (∀ (ur : Option RError) (s : Subscription)
        (ticks : List (Option RError)) (m : Message),
        m ∈ (keepaliveRun ur s ticks).1 →
          m.Error ≠ none ∧ m.Channel = "" ∧ m.Data = []) :=
  ⟨receiver_messages_ok, keepalive_messages_error_only⟩

/-- witness for C6 at a concrete input: the data message produced for a
delivered publish on channel "orders" satisfies the invariant. -/
theorem C6_message_exclusivity_witness :
    MessageOk [Frame.messageFrame "orders" [4, 2]]
      ⟨none, "orders", [4, 2]⟩ :=
  C6_message_exclusivity.1 ⟨some ⟨0⟩⟩
    [Frame.messageFrame "orders" [4, 2]]
    ⟨none, "orders", [4, 2]⟩ (by decide)

/-- C9: a successful Service.Subscribe returns a stream created with
capacity exactly one and an empty buffer, a failed one returns no stream
at all, and a channel send never changes the capacity, so the capacity is
one for the lifetime of the subscription. -/
theorem C9_stream_capacity_one (channels : List String) (conn : PubSubConn)
    (e : RError) (ms : MessageStream) (m : Message) :
    ((Service.Subscribe channels conn none).stream = some ⟨1, []⟩) ∧
    ((Service.Subscribe channels conn (some e)).stream = none) ∧
    ((MessageStream.publish ms m).capacity = ms.capacity) :=
  ⟨rfl, rfl, rfl⟩

/-- C2 (code divergence): when the initial SUBSCRIBE fails,
Service.Subscribe does return the transport error with a nil stream and a
nil subscription and starts neither goroutine, but the dedicated pool
connection is never released: the only transport operation performed is
the SUBSCRIBE itself and no close is ever issued before returning. -/
theorem C2_subscribe_failure_no_release (channels : List String)
    (conn : PubSubConn) (e : RError) :
    ((Service.Subscribe channels conn (some e)).err = some e) ∧
    ((Service.Subscribe channels conn (some e)).stream = none) ∧
    ((Service.Subscribe channels conn (some e)).subscription = none) ∧
    ((Service.Subscribe channels conn (some e)).receiverStarted = false) ∧
    ((Service.Subscribe channels conn (some e)).keepaliveStarted = false) ∧
    ((Service.Subscribe channels conn (some e)).ops =
      [TransportOp.subscribeOp channels]) ∧
    (TransportOp.closeOp ∉ (Service.Subscribe channels conn (some e)).ops) := by
  refine ⟨rfl, rfl, rfl, rfl, rfl, rfl, ?_⟩
  simp [Service.Subscribe]

/-- C1 (code divergence): when the keepalive probe fails on a tick, the
goroutine sends the probe error to the output channel and then calls only
subscription.Unsubscribe with no channels, discarding its result: no
transport close is issued, the subscription state is unchanged, and conn
is still present afterwards, so neither the keepalive loop condition nor
the receiver loop condition observes an absent connection. -/
theorem C1_keepalive_failure_conn_stays_present (c : PubSubConn)
    (e : RError) (ur : Option RError) :
    (keepaliveRun ur ⟨some c⟩ [some e] =
      ([⟨some e, "", []⟩],
        [TransportOp.pingOp, TransportOp.unsubscribeOp []],
        ⟨some c⟩)) ∧
    (TransportOp.closeOp ∉ (keepaliveRun ur ⟨some c⟩ [some e]).2.1) ∧
    ((keepaliveRun ur ⟨some c⟩ [some e]).2.2.conn ≠ none) := by
  refine ⟨rfl, ?_, ?_⟩ <;>
    simp [keepaliveRun, Subscription.Unsubscribe]

/-- C8 (code divergence): with three consecutive failing probe ticks the
keepalive goroutine sends three error messages, one per failing tick, and
still ends with conn present: it is not the case that exactly one
liveness error is published before termination. -/
theorem C8_keepalive_error_per_failing_tick (c : PubSubConn) (e : RError)
    (ur : Option RError) :
    ((keepaliveRun ur ⟨some c⟩ [some e, some e, some e]).1 =
      [⟨some e, "", []⟩, ⟨some e, "", []⟩, ⟨some e, "", []⟩]) ∧
    ((keepaliveRun ur ⟨some c⟩ [some e, some e, some e]).1.length = 3) ∧
    ((keepaliveRun ur ⟨some c⟩ [some e, some e, some e]).2.2 = ⟨some c⟩) :=
  ⟨rfl, rfl, rfl⟩

end GousuRedis
